import Mathlib

/-!
Shallow embedding of the garage-booking backend's payment/verification
state machine and the garage/booking/review aggregates, translated from
the JavaScript sources of the car-garage-system repository.

Conventions of the embedding:
* Mongo documents become Lean structures; the collections become `List`s
  of those structures, and `findOne`/`save` become `List.find?` plus
  `updateFirst` (replace the first matching element).
* Timestamps are milliseconds since the epoch, as `Nat` (`Date.now()`),
  with `dayMs = 24*60*60*1000`.
* HTTP handler results become explicit response structures
  (status code, success flag, message).
* The webhook request body is an association list of string key/value
  pairs; JavaScript destructuring `const { k } = req.body` becomes
  `body.lookup "k"`, and JavaScript falsiness of a missing/empty string
  is modelled by the `none`/`""` cases.
-/

namespace CarGarage

/-- Milliseconds in one day, `24 * 60 * 60 * 1000`. -/
def dayMs : Nat := 86400000

/-- PaymentState of a garage owner's subscription payment
(`garageInfo.paymentStatus` in the user schema). -/
inductive PaymentStatus
  | pending
  | processing
  | paid
  | failed
  | expired
  | refunded
  | cancelled
  | not_required
deriving DecidableEq, Repr

/-- VerificationState of a garage-owner application
(`garageInfo.verificationStatus` in the user schema). -/
inductive VerificationStatus
  | registration_started
  | documents_uploaded
  | pending_payment
  | payment_completed
  | under_review
  | more_info_needed
  | approved
  | rejected
  | suspended
  | banned
deriving DecidableEq, Repr

/-- One entry of `garageInfo.adminReviews` (append-only review history). -/
structure AdminReview where
  reviewedBy : String
  reviewedAt : Nat
  status : String
deriving DecidableEq, Repr

/-- The claim-relevant slice of `garageInfo` embedded in a user document. -/
structure GarageInfo where
  businessName : String := ""
  businessRegNumber : String := ""
  businessEmail : String := ""
  paymentStatus : PaymentStatus := .pending
  verificationStatus : VerificationStatus := .pending_payment
  paymentTxRef : Option String := none
  paymentDate : Option Nat := none
  paymentExpiry : Option Nat := none
  paymentPlan : String := "basic"
  paymentAmount : Option Nat := none
  subscriptionPlan : Option String := none
  subscriptionExpiry : Option Nat := none
  /-- field verificationProgress.paymentCompleted -/
  paymentCompleted : Bool := false
  /-- field verificationProgress.documentsSubmitted -/
  documentsSubmitted : Bool := false
  /-- document types of the attached compliance documents -/
  documents : List String := []
  approvalNumber : Option String := none
  approvedAt : Option Nat := none
  approvedBy : Option String := none
  isActive : Bool := true
  adminReviews : List AdminReview := []
  /-- whether currentReview is set (non-null) -/
  currentReviewActive : Bool := false
deriving DecidableEq, Repr

/-- A user document of the account store (claim-relevant slice). -/
structure User where
  email : String
  role : String
  garageInfo : GarageInfo
deriving DecidableEq, Repr

/-- Replace the first element satisfying `p` by its image under `f`
(the effect of mutating the document returned by `findOne` and saving it). -/
def updateFirst (p : α → Bool) (f : α → α) : List α → List α
  | [] => []
  | a :: as => if p a then f a :: as else a :: updateFirst p f as

/-- User.findOne on `garageInfo.paymentTxRef` with a string reference. -/
def findByTxRef (store : List User) (ref : String) : Option User :=
  store.find? (fun u => u.garageInfo.paymentTxRef == some ref)

/-- A JSON response of the webhook/verification handlers:
HTTP status code, `success` flag and `message`. -/
structure WebhookResponse where
  httpStatus : Nat
  success : Bool
  message : String
deriving DecidableEq, Repr

/-- Field updates of the payment-success branch, identical in the webhook
handler (`updatePaymentStatus`, src/middleware/payment.middleware.js:1132-1155)
and in the verification call (`verifyChapaPayment`, same file 915-930):
PaymentState becomes paid, the payment date is stamped, the payment expiry is
set to now + 30 days unconditionally, VerificationState becomes
payment_completed, and the subscription plan/expiry are set from
`paymentPlan` (365 days only for the yearly plan, and only on
`subscriptionExpiry`). -/
def applyPaymentSuccess (now : Nat) (u : User) : User :=
  let gi := u.garageInfo
  let gi := { gi with
    paymentStatus := .paid
    paymentDate := some now
    paymentExpiry := some (now + 30 * dayMs)
    verificationStatus := .payment_completed
    paymentCompleted := true }
  let gi :=
    if gi.paymentPlan = "yearly" then
      { gi with subscriptionPlan := some "premium"
                subscriptionExpiry := some (now + 365 * dayMs) }
    else
      { gi with subscriptionPlan := some "basic"
                subscriptionExpiry := some (now + 30 * dayMs) }
  { u with garageInfo := gi }

/-- Field updates of the payment-failed branch: PaymentState failed,
VerificationState back to pending_payment. -/
def applyPaymentFailed (u : User) : User :=
  { u with garageInfo := { u.garageInfo with
      paymentStatus := .failed
      verificationStatus := .pending_payment } }

/-- Field updates of the payment-cancelled branch of the earlier webhook
handler variant: PaymentState cancelled, VerificationState pending_payment. -/
def applyPaymentCancelled (u : User) : User :=
  { u with garageInfo := { u.garageInfo with
      paymentStatus := .cancelled
      verificationStatus := .pending_payment } }

/-- updatePaymentStatus — the enhanced webhook handler
(src/middleware/payment.middleware.js:1021-1241).  It reads `tx_ref` and
`status` from the request body under those fixed keys only; a missing or
empty `tx_ref` is acknowledged 200 with "Missing tx_ref"; an unmatched
reference is acknowledged 200 with "User not found for this transaction";
a success-shaped status (`success`/`completed`/`successful`) applies
`applyPaymentSuccess` to the matched account; `failed` applies
`applyPaymentFailed`; any other status is acknowledged with no change. -/
def updatePaymentStatus (body : List (String × String)) (store : List User)
    (now : Nat) : List User × WebhookResponse :=
  match body.lookup "tx_ref" with
  | none => (store, ⟨200, false, "Missing tx_ref"⟩)
  | some ref =>
    if ref = "" then (store, ⟨200, false, "Missing tx_ref"⟩)
    else
      match findByTxRef store ref with
      | none => (store, ⟨200, false, "User not found for this transaction"⟩)
      | some _ =>
        let status? := body.lookup "status"
        if status? = some "success" ∨ status? = some "completed" ∨
            status? = some "successful" then
          (updateFirst (fun u => u.garageInfo.paymentTxRef == some ref)
              (applyPaymentSuccess now) store,
           ⟨200, true, "Payment status updated successfully to PAID"⟩)
        else if status? = some "failed" then
          (updateFirst (fun u => u.garageInfo.paymentTxRef == some ref)
              applyPaymentFailed store,
           ⟨200, true, "Payment failed status recorded"⟩)
        else
          (store, ⟨200, true, "Unknown status received"⟩)

/-- Outcome of the earlier webhook handler variant: either a direct JSON
response, or control passed to the next middleware (`next()`). -/
inductive V1Outcome
  | response (httpStatus : Nat) (success : Bool) (message : String)
  | next
deriving DecidableEq, Repr

/-- updatePaymentStatus — the earlier webhook handler variant
(src/middleware/payment.middleware.js:371-436).  It looks the account up by
the `tx_ref` body field (comparing the possibly-absent value directly) and
responds 404 when no account matches; otherwise it applies the
success/failed/cancelled branch and passes control on. -/
def updatePaymentStatusV1 (body : List (String × String)) (store : List User)
    (now : Nat) : List User × V1Outcome :=
  let txRef? := body.lookup "tx_ref"
  let p := fun (u : User) => u.garageInfo.paymentTxRef == txRef?
  match store.find? p with
  | none => (store, .response 404 false "User not found for this transaction")
  | some _ =>
    let status? := body.lookup "status"
    if status? = some "success" ∨ status? = some "completed" then
      (updateFirst p (applyPaymentSuccess now) store, .next)
    else if status? = some "failed" then
      (updateFirst p applyPaymentFailed store, .next)
    else if status? = some "cancelled" then
      (updateFirst p applyPaymentCancelled store, .next)
    else
      (store, .next)

/-- Outcome of verifyChapaPayment: an error response, or the verification
result attached to the request (`req.verificationResult.success`). -/
inductive VerifyOutcome
  | response (httpStatus : Nat) (success : Bool) (message : String)
  | result (success : Bool)
deriving DecidableEq, Repr

/-- verifyChapaPayment (src/middleware/payment.middleware.js:876-971):
the active verification poll.  `chapaStatus` is the status field of the
provider's verify response.  On a matched account it applies the same
success/failed field updates as the webhook handler. -/
def verifyChapaPayment (txRef : String) (chapaStatus : String)
    (store : List User) (now : Nat) : List User × VerifyOutcome :=
  if txRef = "" then
    (store, .response 400 false "Transaction reference is required")
  else
    match findByTxRef store txRef with
    | none => (store, .result (chapaStatus == "success"))
    | some _ =>
      if chapaStatus = "success" then
        (updateFirst (fun u => u.garageInfo.paymentTxRef == some txRef)
            (applyPaymentSuccess now) store, .result true)
      else
        (updateFirst (fun u => u.garageInfo.paymentTxRef == some txRef)
            applyPaymentFailed store, .result false)

/-- Result of the admin approve route: the HTTP response plus the state of
the targeted account after the operation (`none` when no account was found). -/
structure ApproveResponse where
  httpStatus : Nat
  success : Bool
  message : String
  user : Option User
deriving DecidableEq, Repr

/-- userSchema.methods.approve (src/unnamed/part_003:758-779): stamps
approved state, approval metadata and a generated approval number
`GAR-<Date.now()>-<random>` and appends an admin-review entry.  `rand` is
the random suffix produced by `Math.random().toString(36)`. -/
def approveMethod (u : User) (adminId : String) (now : Nat) (rand : String) :
    User :=
  let gi := u.garageInfo
  { u with garageInfo := { gi with
      verificationStatus := .approved
      approvedAt := some now
      approvedBy := some adminId
      approvalNumber := some ("GAR-" ++ toString now ++ "-" ++ rand)
      isActive := true
      adminReviews := gi.adminReviews ++ [⟨adminId, now, "approved"⟩]
      currentReviewActive := false } }

/-- PUT /admin/garages/:garageId/approve (src/routes/auth.routes.js:342-399):
404 when the account is missing or not a garage owner; 400 with
"Cannot approve: Payment not completed" when `paymentStatus` is neither
paid nor not_required (no state change); otherwise applies `approveMethod`
and responds 200.  No condition on `verificationStatus` is checked. -/
def approveGarageRoute (garage? : Option User) (adminId : String) (now : Nat)
    (rand : String) : ApproveResponse :=
  match garage? with
  | none => ⟨404, false, "Garage owner not found", none⟩
  | some g =>
    if g.role ≠ "garage_owner" then
      ⟨404, false, "Garage owner not found", some g⟩
    else if g.garageInfo.paymentStatus ≠ .paid ∧
        g.garageInfo.paymentStatus ≠ .not_required then
      ⟨400, false, "Cannot approve: Payment not completed", some g⟩
    else
      ⟨200, true, "Garage owner approved successfully",
        some (approveMethod g adminId now rand)⟩

/-- Input form of the garage-owner registration (request body fields plus
the uploaded files, reduced to the claim-relevant parts: the list of
attached document types and whether the required agreement file is there). -/
structure RegistrationForm where
  name : String
  email : String
  password : String
  phone : String
  businessName : String
  businessRegNumber : String
  address : String
  businessPhone : String
  businessEmail : String
  licenseNumber : String
  description : String
  documents : List String
  hasGarageAgreement : Bool
deriving DecidableEq, Repr

/-- An error response of the registration controller. -/
structure RegError where
  httpStatus : Nat
  message : String
deriving DecidableEq, Repr

/-- registerGarageOwner (src/controllers/auth.controller.js:382-790):
field/email/password validation, duplicate checks (in the order of the
code's error messages), required agreement, then creation of the user with
`paymentStatus: 'pending'` and `verificationStatus: 'pending_payment'`
regardless of the attached documents.  The email regex is passed in as the
predicate `validEmail`. -/
def registerGarageOwner (validEmail : String → Bool) (store : List User)
    (f : RegistrationForm) : Except RegError User :=
  if f.name = "" ∨ f.email = "" ∨ f.password = "" ∨ f.phone = "" then
    .error ⟨400, "Please provide all required user fields"⟩
  else if f.businessName = "" ∨ f.businessRegNumber = "" ∨ f.address = "" ∨
      f.businessPhone = "" ∨ f.businessEmail = "" ∨ f.licenseNumber = "" ∨
      f.description = "" then
    .error ⟨400, "Please provide all required business fields"⟩
  else if ¬ (validEmail f.email ∧ validEmail f.businessEmail) then
    .error ⟨400, "Please provide valid email addresses"⟩
  else if f.password.length < 8 then
    .error ⟨400, "Password must be at least 8 characters long"⟩
  else if store.any (fun u => u.email == f.email) then
    .error ⟨400, "Email already exists"⟩
  else if store.any (fun u => u.garageInfo.businessEmail == f.businessEmail) then
    .error ⟨400, "Business email already exists"⟩
  else if store.any
      (fun u => u.garageInfo.businessRegNumber == f.businessRegNumber) then
    .error ⟨400, "Business registration number already exists"⟩
  else if ¬ f.hasGarageAgreement then
    .error ⟨400, "Garage agreement is required"⟩
  else
    .ok { email := f.email
          role := "garage_owner"
          garageInfo := {
            businessName := f.businessName
            businessRegNumber := f.businessRegNumber
            businessEmail := f.businessEmail
            documents := f.documents
            paymentStatus := .pending
            paymentTxRef := none
            paymentPlan := "basic"
            verificationStatus := .pending_payment
            documentsSubmitted := decide (f.documents ≠ [])
            paymentCompleted := false } }

/-- Status of a booking (src/models/booking.js:52-62). -/
inductive BookingStatus
  | pending
  | confirmed
  | in_progress
  | completed
  | cancelled
  | rejected
deriving DecidableEq, Repr

/-- A booking document (claim-relevant slice). -/
structure BookingDoc where
  id : String
  garage : String
  status : BookingStatus
  isDeleted : Bool := false
  deletedAt : Option Nat := none
deriving DecidableEq, Repr

/-- A garage document (claim-relevant slice, with the rating rollup). -/
structure GarageDoc where
  id : String
  isDeleted : Bool := false
  deletedAt : Option Nat := none
  averageRating : ℚ := 0
  totalReviews : Nat := 0
deriving DecidableEq, Repr

/-- A JSON response of the garage delete handlers. -/
structure DeleteResponse where
  httpStatus : Nat
  message : String
deriving DecidableEq, Repr

/-- softDeleteGarage — the guarded variant
(src/controllers/auth.controller.js:2101-2151): refuses with 400 when the
garage has a non-deleted booking in status pending/confirmed/in_progress;
otherwise marks the garage soft-deleted and cascades
`isDeleted/deletedAt/status := cancelled` to every booking of the garage. -/
def softDeleteGarage (garages : List GarageDoc) (bookings : List BookingDoc)
    (gid : String) (now : Nat) :
    List GarageDoc × List BookingDoc × DeleteResponse :=
  match garages.find? (fun g => g.id == gid) with
  | none => (garages, bookings, ⟨404, "Garage not found"⟩)
  | some _ =>
    if bookings.any (fun b => b.garage == gid &&
        (b.status == .pending || b.status == .confirmed ||
          b.status == .in_progress) && !b.isDeleted) then
      (garages, bookings,
       ⟨400, "Cannot delete garage with active bookings. Please cancel or complete all bookings first."⟩)
    else
      (updateFirst (fun g => g.id == gid)
          (fun g => { g with isDeleted := true, deletedAt := some now }) garages,
       bookings.map (fun b =>
         if b.garage == gid then
           { b with isDeleted := true, deletedAt := some now,
                    status := .cancelled }
         else b),
       ⟨200, "Garage and associated bookings soft deleted"⟩)

/-- softDeleteGarage — the plain variant
(src/controllers/garage.controller.js:114-131): soft-deletes the garage
unconditionally, with no booking check and no cascade. -/
def softDeleteGaragePlain (garages : List GarageDoc) (gid : String)
    (now : Nat) : List GarageDoc × DeleteResponse :=
  match garages.find? (fun g => g.id == gid) with
  | none => (garages, ⟨404, "Garage not found"⟩)
  | some _ =>
    (updateFirst (fun g => g.id == gid)
        (fun g => { g with isDeleted := true, deletedAt := some now }) garages,
     ⟨200, "Garage soft deleted"⟩)

/-- A review document (src/models/Review.js, claim-relevant slice). -/
structure ReviewDoc where
  id : String
  user : String
  garage : String
  rating : Nat
  isDeleted : Bool := false
  deletedAt : Option Nat := none
deriving DecidableEq, Repr

/-- Rounding to one decimal as `Math.round(x * 10) / 10`; JavaScript's
`Math.round` is `floor (x + 1/2)`. -/
def round1 (q : ℚ) : ℚ := (⌊q * 10 + 1/2⌋ : ℚ) / 10

/-- The non-deleted reviews of a garage — the `$match` stage of the rating
aggregation. -/
def nonDeletedFor (reviews : List ReviewDoc) (gid : String) : List ReviewDoc :=
  reviews.filter (fun r => r.garage == gid && !r.isDeleted)

/-- Sum of ratings of a review list, as a rational. -/
def ratingSum (l : List ReviewDoc) : ℚ := (l.map (fun r => (r.rating : ℚ))).sum

/-- Review.updateGarageRating (src/models/Review.js:75-108): recompute the
rollup from scratch over the non-deleted reviews for the garage; with no
such reviews both fields reset to 0. -/
def updateGarageRating (reviews : List ReviewDoc) (g : GarageDoc) : GarageDoc :=
  let l := nonDeletedFor reviews g.id
  if l.length > 0 then
    { g with averageRating := round1 (ratingSum l / (l.length : ℚ))
             totalReviews := l.length }
  else
    { g with averageRating := 0, totalReviews := 0 }

/-- An error response of the review controller (HTTP status and message). -/
structure ReviewError where
  httpStatus : Nat
  message : String
deriving DecidableEq, Repr

/-- createReview (src/unnamed/part_001:51-100, path without a bookingId)
followed by the post-save hook.  The first branch is the controller's
application-level duplicate check (non-deleted reviews only); the second
branch embeds the store's unique index on `{user, garage}`
(src/models/Review.js:67), which covers soft-deleted rows as well — its
E11000 violation surfaces through the controller's catch as a 500.
`newId` is the id the store assigns to the created document. -/
def createReview (reviews : List ReviewDoc) (newId uid : String) (rating : Nat)
    (g : GarageDoc) : Except ReviewError (List ReviewDoc × GarageDoc) :=
  if reviews.any (fun r => r.user == uid && r.garage == g.id && !r.isDeleted) then
    .error ⟨400, "You have already reviewed this garage"⟩
  else if reviews.any (fun r => r.user == uid && r.garage == g.id) then
    .error ⟨500, "E11000 duplicate key error"⟩
  else
    let rs := reviews ++ [{ id := newId, user := uid, garage := g.id,
                            rating := rating }]
    .ok (rs, updateGarageRating rs g)

/-- deleteReview (src/unnamed/part_001:190-217) followed by the post-save
hook: 404 when absent or already deleted, 403 unless requested by the
review's owner or an admin, otherwise mark soft-deleted and recompute the
garage rollup. -/
def deleteReview (reviews : List ReviewDoc) (rid requester requesterRole : String)
    (now : Nat) (g : GarageDoc) :
    Except ReviewError (List ReviewDoc × GarageDoc) :=
  match reviews.find? (fun r => r.id == rid) with
  | none => .error ⟨404, "Review not found"⟩
  | some r =>
    if r.isDeleted then .error ⟨404, "Review not found"⟩
    else if r.user ≠ requester ∧ requesterRole ≠ "admin" then
      .error ⟨403, "Not authorized"⟩
    else
      let rs := updateFirst (fun x => x.id == rid)
          (fun x => { x with isDeleted := true, deletedAt := some now }) reviews
      .ok (rs, updateGarageRating rs g)

/-- Sequential creation of one review per (user, rating) pair for one
garage, using the user string as the created document's id; each step runs
the full `createReview` path including the rollup recomputation. -/
def foldCreate (pairs : List (String × Nat)) (reviews : List ReviewDoc)
    (g : GarageDoc) : Except ReviewError (List ReviewDoc × GarageDoc) :=
  match pairs with
  | [] => .ok (reviews, g)
  | (u, k) :: rest =>
    match createReview reviews u u k g with
    | .error e => .error e
    | .ok (rs, g') => foldCreate rest rs g'

/-- Result of the webhook signature middleware: whether the request is
passed on, and what the HMAC comparison concluded when it ran
(`none` when secret or signature was absent and the check was skipped). -/
structure SignatureCheck where
  proceeds : Bool
  signatureValid : Option Bool
deriving DecidableEq, Repr

/-- verifyWebhookSignature — the variant wired at POST /callback
(src/middleware/payment.middleware.js:980-1016): computes and logs the
HMAC comparison when both secret and signature are present, but calls
`next()` in every case; no branch rejects the request.  The HMAC
implementation is passed in as `hmacSha256`. -/
def verifyWebhookSignature (hmacSha256 : String → String → String)
    (webhookSecret : Option String) (signature : Option String)
    (rawBody : String) : SignatureCheck :=
  match webhookSecret, signature with
  | some secret, some sig => ⟨true, some (hmacSha256 secret rawBody == sig)⟩
  | _, _ => ⟨true, none⟩

/-- POST /payments/callback (src/routes/payment.routes.js:288-292):
`verifyWebhookSignature` then `updatePaymentStatus`; the handler runs only
if the middleware passed the request on. -/
def paymentCallbackRoute (hmacSha256 : String → String → String)
    (webhookSecret : Option String) (signature : Option String)
    (rawBody : String) (body : List (String × String)) (store : List User)
    (now : Nat) : List User × WebhookResponse :=
  let check := verifyWebhookSignature hmacSha256 webhookSecret signature rawBody
  if check.proceeds then updatePaymentStatus body store now
  else (store, ⟨401, false, "No signature provided"⟩)

/-! Helper lemmas -/

theorem find?_updateFirst_of_pos (p : α → Bool) (f : α → α) (l : List α)
    (u : α) (hfind : l.find? p = some u) (hpf : p (f u) = true) :
    (updateFirst p f l).find? p = some (f u) := by
  induction l with
  | nil => simp [List.find?] at hfind
  | cons a as ih =>
    by_cases hp : p a
    · rw [List.find?_cons_of_pos _ hp] at hfind
      cases hfind
      simp only [updateFirst, hp, if_pos]
      rw [List.find?_cons_of_pos _ hpf]
    · rw [List.find?_cons_of_neg _ hp] at hfind
      simp only [updateFirst, hp, if_neg, Bool.false_eq_true, not_false_iff,
        ite_false]
      rw [List.find?_cons_of_neg _ hp]
      exact ih hfind

theorem applyPaymentSuccess_fields (now : Nat) (u : User) :
    (applyPaymentSuccess now u).garageInfo.paymentStatus = .paid ∧
    (applyPaymentSuccess now u).garageInfo.verificationStatus =
      .payment_completed ∧
    (applyPaymentSuccess now u).garageInfo.paymentDate = some now ∧
    (applyPaymentSuccess now u).garageInfo.paymentExpiry =
      some (now + 30 * dayMs) ∧
    (applyPaymentSuccess now u).garageInfo.subscriptionExpiry =
      some (now +
        (if u.garageInfo.paymentPlan = "yearly" then 365 else 30) * dayMs) ∧
    (applyPaymentSuccess now u).garageInfo.paymentTxRef =
      u.garageInfo.paymentTxRef := by
  unfold applyPaymentSuccess
  by_cases h : u.garageInfo.paymentPlan = "yearly" <;> simp [h]

theorem webhook_success_updates (store : List User) (ref : String) (u : User)
    (now : Nat) (href : ref ≠ "") (hfind : findByTxRef store ref = some u) :
    updatePaymentStatus [("tx_ref", ref), ("status", "success")] store now =
      (updateFirst (fun v => v.garageInfo.paymentTxRef == some ref)
         (applyPaymentSuccess now) store,
       ⟨200, true, "Payment status updated successfully to PAID"⟩) := by
  simp [updatePaymentStatus, List.lookup, href, hfind]

/-! Claim theorems -/

/-- C10: the account-state transition applied by the payment webhook
callback does not depend on the x-chapa-signature header: for identical
bodies, any two signature values (valid, mismatched or missing) produce
the same resulting account store, for every HMAC implementation, because
`verifyWebhookSignature` always passes the request on. -/
theorem C10_signature_independent_state
    (hmacSha256 : String → String → String) (webhookSecret : Option String)
    (sig1 sig2 : Option String) (rawBody : String)
    (body : List (String × String)) (store : List User) (now : Nat) :
    (paymentCallbackRoute hmacSha256 webhookSecret sig1 rawBody body store now).1 =
    (paymentCallbackRoute hmacSha256 webhookSecret sig2 rawBody body store now).1 := by
  have hp : ∀ s : Option String,
      (verifyWebhookSignature hmacSha256 webhookSecret s rawBody).proceeds = true := by
    intro s
    cases webhookSecret <;> cases s <;> rfl
  simp [paymentCallbackRoute, hp]

/-- C6 counterexample: a webhook payload carrying the transaction reference
under the alternative key "reference" (instead of "tx_ref") is NOT
extracted and NOT processed: the handler acknowledges it as missing and the
matching account stays pending, refuting the claimed list of extraction
strategies. -/
theorem C6_alternative_key_not_extracted_cx :
    (updatePaymentStatus [("reference", "T"), ("status", "success")]
        [{ email := "o@x.com", role := "garage_owner",
           garageInfo := { paymentTxRef := some "T" } }] 0).2 =
      ⟨200, false, "Missing tx_ref"⟩ ∧
    (updatePaymentStatus [("reference", "T"), ("status", "success")]
        [{ email := "o@x.com", role := "garage_owner",
           garageInfo := { paymentTxRef := some "T" } }] 0).1 =
      [{ email := "o@x.com", role := "garage_owner",
         garageInfo := { paymentTxRef := some "T" } }] ∧
    ({ paymentTxRef := some "T" } : GarageInfo).paymentStatus =
      .pending := by
  decide

/-- C6 amended: the webhook handler extracts the transaction reference from
the single fixed body key "tx_ref" only; every payload without that key is
acknowledged 200 with a "Missing tx_ref" outcome and no account is
mutated. -/
theorem C6_single_key_extraction (body : List (String × String))
    (store : List User) (now : Nat) (h : body.lookup "tx_ref" = none) :
    updatePaymentStatus body store now =
      (store, ⟨200, false, "Missing tx_ref"⟩) := by
  simp [updatePaymentStatus, h]

/-- C6 witness: the amended theorem at a concrete payload whose reference
sits under the key "trx_ref". -/
theorem C6_single_key_extraction_witness :
    [("trx_ref", "T")].lookup "tx_ref" = none ∧
    updatePaymentStatus [("trx_ref", "T")] [] 0 =
      ([], ⟨200, false, "Missing tx_ref"⟩) :=
  ⟨by decide, C6_single_key_extraction [("trx_ref", "T")] [] 0 (by decide)⟩

/-- C1 counterexample: the approve route succeeds (HTTP 200, state
approved) on an account whose VerificationState is registration_started —
neither payment_completed nor under_review — because its PaymentState is
not_required; the route never checks the VerificationState, refuting the
claimed verification-state precondition. -/
theorem C1_approve_ignores_verification_state_cx :
    (approveGarageRoute
        (some { email := "o@x.com", role := "garage_owner",
                garageInfo := { paymentStatus := .not_required,
                                verificationStatus := .registration_started } })
        "adm" 5 "R").httpStatus = 200 ∧
    (approveGarageRoute
        (some { email := "o@x.com", role := "garage_owner",
                garageInfo := { paymentStatus := .not_required,
                                verificationStatus := .registration_started } })
        "adm" 5 "R").success = true ∧
    ((approveGarageRoute
        (some { email := "o@x.com", role := "garage_owner",
                garageInfo := { paymentStatus := .not_required,
                                verificationStatus := .registration_started } })
        "adm" 5 "R").user.map
          (fun u => u.garageInfo.verificationStatus)) = some .approved ∧
    (VerificationStatus.registration_started ≠ .payment_completed ∧
     VerificationStatus.registration_started ≠ .under_review) := by
  decide

/-- C1 amended: for a garage-owner account, the admin approve operation is
gated on PaymentState alone: with PaymentState outside {paid, not_required}
it fails 400 with the explicit "Cannot approve: Payment not completed"
message and the account (its VerificationState included) is unchanged;
with PaymentState in {paid, not_required} it succeeds and stamps
VerificationState approved, regardless of the previous VerificationState. -/
theorem C1_approve_payment_gate (u : User) (adminId : String) (now : Nat)
    (rand : String) (hrole : u.role = "garage_owner") :
    (u.garageInfo.paymentStatus ≠ .paid ∧
        u.garageInfo.paymentStatus ≠ .not_required →
      approveGarageRoute (some u) adminId now rand =
        ⟨400, false, "Cannot approve: Payment not completed", some u⟩) ∧
    ((u.garageInfo.paymentStatus = .paid ∨
        u.garageInfo.paymentStatus = .not_required) →
      approveGarageRoute (some u) adminId now rand =
        ⟨200, true, "Garage owner approved successfully",
          some (approveMethod u adminId now rand)⟩ ∧
      (approveMethod u adminId now rand).garageInfo.verificationStatus =
        .approved) := by
  constructor
  · intro h
    simp [approveGarageRoute, hrole, h]
  · intro h
    rcases h with h | h <;>
      simp [approveGarageRoute, approveMethod, hrole, h]

/-- C1 witness: the amended theorem at a paid account and at a pending
account. -/
theorem C1_approve_payment_gate_witness :
    approveGarageRoute
        (some { email := "a@x.com", role := "garage_owner",
                garageInfo := { paymentStatus := .paid,
                                verificationStatus := .under_review } })
        "adm" 7 "Z" =
      ⟨200, true, "Garage owner approved successfully",
        some (approveMethod
          { email := "a@x.com", role := "garage_owner",
            garageInfo := { paymentStatus := .paid,
                            verificationStatus := .under_review } }
          "adm" 7 "Z")⟩ ∧
    (approveMethod
        { email := "a@x.com", role := "garage_owner",
          garageInfo := { paymentStatus := .paid,
                          verificationStatus := .under_review } }
        "adm" 7 "Z").garageInfo.verificationStatus = .approved :=
  (C1_approve_payment_gate
    { email := "a@x.com", role := "garage_owner",
      garageInfo := { paymentStatus := .paid,
                      verificationStatus := .under_review } }
    "adm" 7 "Z" rfl).2 (Or.inl rfl)

/-- C5 counterexample: a valid garage-owner registration with one attached
document produces a profile whose VerificationState is pending_payment —
not registration_started and not documents_uploaded — refuting the claimed
initial states (the PaymentState=pending half does hold). -/
theorem C5_initial_state_cx :
    registerGarageOwner (fun _ => true) []
        { name := "A", email := "a@b.co", password := "12345678",
          phone := "1", businessName := "B", businessRegNumber := "R",
          address := "Ad", businessPhone := "2", businessEmail := "b@b.co",
          licenseNumber := "L", description := "D",
          documents := ["business_license"], hasGarageAgreement := true } =
      .ok { email := "a@b.co", role := "garage_owner",
            garageInfo := { businessName := "B", businessRegNumber := "R",
                            businessEmail := "b@b.co",
                            paymentStatus := .pending,
                            verificationStatus := .pending_payment,
                            paymentTxRef := none, paymentPlan := "basic",
                            documentsSubmitted := true,
                            documents := ["business_license"],
                            paymentCompleted := false } } ∧
    (VerificationStatus.pending_payment ≠ .registration_started ∧
     VerificationStatus.pending_payment ≠ .documents_uploaded) := by
  constructor
  · rfl
  · decide

/-- C5 amended: every successful garage-owner registration creates the
profile with VerificationState pending_payment (regardless of whether
documents were attached) and PaymentState pending; the attached documents
are recorded and only the documentsSubmitted progress flag depends on
them. -/
theorem C5_registration_initial_state (validEmail : String → Bool)
    (store : List User) (f : RegistrationForm) (u : User)
    (h : registerGarageOwner validEmail store f = .ok u) :
    u.garageInfo.verificationStatus = .pending_payment ∧
    u.garageInfo.paymentStatus = .pending ∧
    u.garageInfo.documents = f.documents ∧
    u.garageInfo.documentsSubmitted = decide (f.documents ≠ []) := by
  unfold registerGarageOwner at h
  repeat' split at h
  all_goals simp_all
  subst h
  exact ⟨rfl, rfl, rfl, rfl⟩

/-- C5 witness: the amended theorem at a concrete valid registration. -/
theorem C5_registration_initial_state_witness :
    ({ businessName := "B", businessRegNumber := "R",
       businessEmail := "b@b.co", paymentStatus := .pending,
       verificationStatus := .pending_payment, paymentTxRef := none,
       paymentPlan := "basic", documentsSubmitted := true,
       documents := ["business_license"],
       paymentCompleted := false } : GarageInfo).verificationStatus =
      .pending_payment ∧
    ({ businessName := "B", businessRegNumber := "R",
       businessEmail := "b@b.co", paymentStatus := .pending,
       verificationStatus := .pending_payment, paymentTxRef := none,
       paymentPlan := "basic", documentsSubmitted := true,
       documents := ["business_license"],
       paymentCompleted := false } : GarageInfo).paymentStatus = .pending := by
  have h := C5_registration_initial_state (fun _ => true) []
    { name := "A", email := "a@b.co", password := "12345678",
      phone := "1", businessName := "B", businessRegNumber := "R",
      address := "Ad", businessPhone := "2", businessEmail := "b@b.co",
      licenseNumber := "L", description := "D",
      documents := ["business_license"], hasGarageAgreement := true }
    { email := "a@b.co", role := "garage_owner",
      garageInfo := { businessName := "B", businessRegNumber := "R",
                      businessEmail := "b@b.co", paymentStatus := .pending,
                      verificationStatus := .pending_payment,
                      paymentTxRef := none, paymentPlan := "basic",
                      documentsSubmitted := true,
                      documents := ["business_license"],
                      paymentCompleted := false } } rfl
  exact ⟨h.1, h.2.1⟩

/-- C3 counterexample: the earlier webhook handler variant responds 404 —
not 200 — to a notification whose transaction reference matches no stored
account, refuting the claimed universal 200 acknowledgment (the store is
still left unmutated). -/
theorem C3_unmatched_v1_returns_404_cx :
    (updatePaymentStatusV1 [("tx_ref", "B"), ("status", "success")]
        [{ email := "o@x.com", role := "garage_owner",
           garageInfo := { paymentTxRef := some "A" } }] 0).2 =
      .response 404 false "User not found for this transaction" ∧
    (updatePaymentStatusV1 [("tx_ref", "B"), ("status", "success")]
        [{ email := "o@x.com", role := "garage_owner",
           garageInfo := { paymentTxRef := some "A" } }] 0).1 =
      [{ email := "o@x.com", role := "garage_owner",
         garageInfo := { paymentTxRef := some "A" } }] ∧
    (404 : Nat) ≠ 200 := by
  decide

/-- C3 amended: a webhook notification whose transaction reference matches
no stored account mutates no account in either handler variant; the
enhanced handler (the one wired at POST /callback) acknowledges it 200
with an unmatched outcome, while the earlier variant responds 404. -/
theorem C3_unmatched_webhook_acknowledged (store : List User)
    (body : List (String × String)) (now : Nat) (ref : String)
    (hbody : body.lookup "tx_ref" = some ref) (href : ref ≠ "")
    (hfind : findByTxRef store ref = none) :
    updatePaymentStatus body store now =
      (store, ⟨200, false, "User not found for this transaction"⟩) ∧
    updatePaymentStatusV1 body store now =
      (store, .response 404 false "User not found for this transaction") := by
  have hfind' : store.find?
      (fun u => u.garageInfo.paymentTxRef == some ref) = none := hfind
  constructor
  · simp [updatePaymentStatus, hbody, href, hfind]
  · simp [updatePaymentStatusV1, hbody, hfind']

/-- C3 witness: the amended theorem at a concrete store holding one account
with reference "A" and a webhook naming reference "B". -/
theorem C3_unmatched_webhook_acknowledged_witness :
    updatePaymentStatus [("tx_ref", "B")]
        [{ email := "o@x.com", role := "garage_owner",
           garageInfo := { paymentTxRef := some "A" } }] 3 =
      ([{ email := "o@x.com", role := "garage_owner",
          garageInfo := { paymentTxRef := some "A" } }],
       ⟨200, false, "User not found for this transaction"⟩) ∧
    updatePaymentStatusV1 [("tx_ref", "B")]
        [{ email := "o@x.com", role := "garage_owner",
           garageInfo := { paymentTxRef := some "A" } }] 3 =
      ([{ email := "o@x.com", role := "garage_owner",
          garageInfo := { paymentTxRef := some "A" } }],
       .response 404 false "User not found for this transaction") :=
  C3_unmatched_webhook_acknowledged
    [{ email := "o@x.com", role := "garage_owner",
       garageInfo := { paymentTxRef := some "A" } }]
    [("tx_ref", "B")] 3 "B" (by decide) (by decide) (by decide)

/-- C4 counterexample: a success webhook for an account on the yearly plan
sets the payment expiry to now + 30 days, not now + 365 days as claimed
(the 365-day horizon is written to subscriptionExpiry instead). -/
theorem C4_yearly_payment_expiry_cx :
    (findByTxRef
      (updatePaymentStatus [("tx_ref", "T"), ("status", "success")]
        [{ email := "o@x.com", role := "garage_owner",
           garageInfo := { paymentTxRef := some "T",
                           paymentPlan := "yearly" } }] 0).1 "T").map
      (fun u => (u.garageInfo.paymentPlan, u.garageInfo.paymentExpiry,
                 u.garageInfo.subscriptionExpiry)) =
      some ("yearly", some (30 * dayMs), some (365 * dayMs)) ∧
    (30 * dayMs : Nat) ≠ 365 * dayMs := by
  decide

/-- C4 amended: every recognized payment-success signal (webhook with a
success-shaped status, or a success verification call) sets PaymentState
paid, VerificationState payment_completed, and the payment expiry to
now + 30 days for every plan; the plan-dependent part is the subscription
expiry, now + 365 days for the yearly plan and now + 30 days otherwise. -/
theorem C4_success_reconciliation_fields (store : List User) (ref : String)
    (u : User) (now : Nat) (href : ref ≠ "")
    (hfind : findByTxRef store ref = some u) :
    findByTxRef
        (updatePaymentStatus [("tx_ref", ref), ("status", "success")]
          store now).1 ref = some (applyPaymentSuccess now u) ∧
    findByTxRef (verifyChapaPayment ref "success" store now).1 ref =
      some (applyPaymentSuccess now u) ∧
    (applyPaymentSuccess now u).garageInfo.paymentStatus = .paid ∧
    (applyPaymentSuccess now u).garageInfo.verificationStatus =
      .payment_completed ∧
    (applyPaymentSuccess now u).garageInfo.paymentExpiry =
      some (now + 30 * dayMs) ∧
    (applyPaymentSuccess now u).garageInfo.subscriptionExpiry =
      some (now +
        (if u.garageInfo.paymentPlan = "yearly" then 365 else 30) * dayMs) := by
  have hfields := applyPaymentSuccess_fields now u
  have hpu : (fun v : User => v.garageInfo.paymentTxRef == some ref) u = true := by
    have := List.find?_some hfind
    simpa using this
  have hpf : (fun v : User => v.garageInfo.paymentTxRef == some ref)
      (applyPaymentSuccess now u) = true := by
    simpa [hfields.2.2.2.2.2] using hpu
  have hupd := find?_updateFirst_of_pos
    (fun v : User => v.garageInfo.paymentTxRef == some ref)
    (applyPaymentSuccess now) store u hfind hpf
  refine ⟨?_, ?_, hfields.1, hfields.2.1, hfields.2.2.2.1, hfields.2.2.2.2.1⟩
  · rw [webhook_success_updates store ref u now href hfind]
    exact hupd
  · simp only [verifyChapaPayment, href, if_neg, hfind]
    simpa [findByTxRef] using hupd

/-- C4 witness: the amended theorem at a concrete basic-plan account. -/
theorem C4_success_reconciliation_fields_witness :
    findByTxRef
        (updatePaymentStatus [("tx_ref", "T"), ("status", "success")]
          [{ email := "o@x.com", role := "garage_owner",
             garageInfo := { paymentTxRef := some "T" } }] 10).1 "T" =
      some (applyPaymentSuccess 10
        { email := "o@x.com", role := "garage_owner",
          garageInfo := { paymentTxRef := some "T" } }) ∧
    findByTxRef
        (verifyChapaPayment "T" "success"
          [{ email := "o@x.com", role := "garage_owner",
             garageInfo := { paymentTxRef := some "T" } }] 10).1 "T" =
      some (applyPaymentSuccess 10
        { email := "o@x.com", role := "garage_owner",
          garageInfo := { paymentTxRef := some "T" } }) ∧
    (applyPaymentSuccess 10
        { email := "o@x.com", role := "garage_owner",
          garageInfo := { paymentTxRef := some "T" } }).garageInfo.paymentStatus
      = .paid ∧
    (applyPaymentSuccess 10
        { email := "o@x.com", role := "garage_owner",
          garageInfo := { paymentTxRef := some "T" } }).garageInfo.verificationStatus
      = .payment_completed ∧
    (applyPaymentSuccess 10
        { email := "o@x.com", role := "garage_owner",
          garageInfo := { paymentTxRef := some "T" } }).garageInfo.paymentExpiry
      = some (10 + 30 * dayMs) ∧
    (applyPaymentSuccess 10
        { email := "o@x.com", role := "garage_owner",
          garageInfo := { paymentTxRef := some "T" } }).garageInfo.subscriptionExpiry
      = some (10 + 30 * dayMs) := by
  have h := C4_success_reconciliation_fields
    [{ email := "o@x.com", role := "garage_owner",
       garageInfo := { paymentTxRef := some "T" } }]
    "T"
    { email := "o@x.com", role := "garage_owner",
      garageInfo := { paymentTxRef := some "T" } }
    10 (by decide) (by decide)
  simpa using h

/-- C2 counterexample: applying the same success webhook twice for the same
transaction reference is not a no-op the second time — the handler
unconditionally rewrites the payment timestamps, so a second delivery at a
later time changes the stored account (paymentDate moves from 0 to
86400000 and paymentExpiry moves with it) even though both calls return a
success acknowledgment. -/
theorem C2_second_webhook_not_noop_cx :
    (updatePaymentStatus [("tx_ref", "T"), ("status", "success")]
        [{ email := "o@x.com", role := "garage_owner",
           garageInfo := { paymentTxRef := some "T" } }] 0).2.success = true ∧
    (updatePaymentStatus [("tx_ref", "T"), ("status", "success")]
        (updatePaymentStatus [("tx_ref", "T"), ("status", "success")]
          [{ email := "o@x.com", role := "garage_owner",
             garageInfo := { paymentTxRef := some "T" } }] 0).1
        86400000).2.success = true ∧
    ((findByTxRef
        (updatePaymentStatus [("tx_ref", "T"), ("status", "success")]
          [{ email := "o@x.com", role := "garage_owner",
             garageInfo := { paymentTxRef := some "T" } }] 0).1 "T").map
       (fun u => u.garageInfo.paymentDate) = some (some 0)) ∧
    ((findByTxRef
        (updatePaymentStatus [("tx_ref", "T"), ("status", "success")]
          (updatePaymentStatus [("tx_ref", "T"), ("status", "success")]
            [{ email := "o@x.com", role := "garage_owner",
               garageInfo := { paymentTxRef := some "T" } }] 0).1
          86400000).1 "T").map
       (fun u => u.garageInfo.paymentDate) = some (some 86400000)) ∧
    (updatePaymentStatus [("tx_ref", "T"), ("status", "success")]
        (updatePaymentStatus [("tx_ref", "T"), ("status", "success")]
          [{ email := "o@x.com", role := "garage_owner",
             garageInfo := { paymentTxRef := some "T" } }] 0).1
        86400000).1 ≠
      (updatePaymentStatus [("tx_ref", "T"), ("status", "success")]
        [{ email := "o@x.com", role := "garage_owner",
           garageInfo := { paymentTxRef := some "T" } }] 0).1 := by
  decide

/-- C2 amended: re-applying a success webhook for an already-paid account
is idempotent on PaymentState and VerificationState only: both deliveries
are acknowledged with the same 200 success response, after the first the
account is paid/payment_completed, and the second leaves those two states
at the same values — but it rewrites paymentDate (and with it the expiry
and subscription timestamps) to the second delivery time, so the full
account record is a no-op only when the two deliveries carry the same
timestamp. -/
theorem C2_webhook_idempotent_states (store : List User) (ref : String)
    (u : User) (t1 t2 : Nat) (href : ref ≠ "")
    (hfind : findByTxRef store ref = some u) :
    (updatePaymentStatus [("tx_ref", ref), ("status", "success")] store t1).2 =
      ⟨200, true, "Payment status updated successfully to PAID"⟩ ∧
    (updatePaymentStatus [("tx_ref", ref), ("status", "success")]
        (updatePaymentStatus [("tx_ref", ref), ("status", "success")]
          store t1).1 t2).2 =
      ⟨200, true, "Payment status updated successfully to PAID"⟩ ∧
    findByTxRef
        (updatePaymentStatus [("tx_ref", ref), ("status", "success")]
          store t1).1 ref = some (applyPaymentSuccess t1 u) ∧
    findByTxRef
        (updatePaymentStatus [("tx_ref", ref), ("status", "success")]
          (updatePaymentStatus [("tx_ref", ref), ("status", "success")]
            store t1).1 t2).1 ref =
      some (applyPaymentSuccess t2 (applyPaymentSuccess t1 u)) ∧
    (applyPaymentSuccess t1 u).garageInfo.paymentStatus = .paid ∧
    (applyPaymentSuccess t2 (applyPaymentSuccess t1 u)).garageInfo.paymentStatus
      = .paid ∧
    (applyPaymentSuccess t2
        (applyPaymentSuccess t1 u)).garageInfo.verificationStatus =
      (applyPaymentSuccess t1 u).garageInfo.verificationStatus ∧
    (applyPaymentSuccess t2 (applyPaymentSuccess t1 u)).garageInfo.paymentDate
      = some t2 := by
  have h1 := applyPaymentSuccess_fields t1 u
  have h2 := applyPaymentSuccess_fields t2 (applyPaymentSuccess t1 u)
  have hpu : (fun v : User => v.garageInfo.paymentTxRef == some ref) u = true := by
    have := List.find?_some hfind
    simpa using this
  have hpf1 : (fun v : User => v.garageInfo.paymentTxRef == some ref)
      (applyPaymentSuccess t1 u) = true := by
    simpa [h1.2.2.2.2.2] using hpu
  have hstep1 : findByTxRef
      (updatePaymentStatus [("tx_ref", ref), ("status", "success")]
        store t1).1 ref = some (applyPaymentSuccess t1 u) := by
    rw [webhook_success_updates store ref u t1 href hfind]
    exact find?_updateFirst_of_pos _ _ store u hfind hpf1
  have hpf2 : (fun v : User => v.garageInfo.paymentTxRef == some ref)
      (applyPaymentSuccess t2 (applyPaymentSuccess t1 u)) = true := by
    simpa [h2.2.2.2.2.2, h1.2.2.2.2.2] using hpu
  have hstep2 : findByTxRef
      (updatePaymentStatus [("tx_ref", ref), ("status", "success")]
        (updatePaymentStatus [("tx_ref", ref), ("status", "success")]
          store t1).1 t2).1 ref =
      some (applyPaymentSuccess t2 (applyPaymentSuccess t1 u)) := by
    rw [webhook_success_updates _ ref (applyPaymentSuccess t1 u) t2 href hstep1]
    exact find?_updateFirst_of_pos _ _ _ _ hstep1 hpf2
  refine ⟨?_, ?_, hstep1, hstep2, h1.1, h2.1, ?_, h2.2.2.1⟩
  · rw [webhook_success_updates store ref u t1 href hfind]
  · rw [webhook_success_updates _ ref (applyPaymentSuccess t1 u) t2 href hstep1]
  · rw [h2.2.1, h1.2.1]

/-- C2 witness: the amended theorem at a concrete account with reference
"T" and deliveries at times 0 and 5. -/
theorem C2_webhook_idempotent_states_witness :
    (updatePaymentStatus [("tx_ref", "T"), ("status", "success")]
        [{ email := "o@x.com", role := "garage_owner",
           garageInfo := { paymentTxRef := some "T" } }] 0).2 =
      ⟨200, true, "Payment status updated successfully to PAID"⟩ ∧
    (updatePaymentStatus [("tx_ref", "T"), ("status", "success")]
        (updatePaymentStatus [("tx_ref", "T"), ("status", "success")]
          [{ email := "o@x.com", role := "garage_owner",
             garageInfo := { paymentTxRef := some "T" } }] 0).1 5).2 =
      ⟨200, true, "Payment status updated successfully to PAID"⟩ ∧
    (applyPaymentSuccess 5 (applyPaymentSuccess 0
        { email := "o@x.com", role := "garage_owner",
          garageInfo := { paymentTxRef := some "T" } })).garageInfo.paymentStatus
      = .paid := by
  have h := C2_webhook_idempotent_states
    [{ email := "o@x.com", role := "garage_owner",
       garageInfo := { paymentTxRef := some "T" } }]
    "T"
    { email := "o@x.com", role := "garage_owner",
      garageInfo := { paymentTxRef := some "T" } }
    0 5 (by decide) (by decide)
  exact ⟨h.1, h.2.1, h.2.2.2.2.2.1⟩

/-- C7 counterexample: the plain softDeleteGarage variant (the one wired at
DELETE /garages/:id) soft-deletes a garage that has an active pending
booking — it consults no bookings at all — responding 200 and marking the
garage deleted, refuting the claimed refusal. -/
theorem C7_plain_delete_ignores_active_bookings_cx :
    ([(⟨"b1", "G1", .pending, false, none⟩ : BookingDoc)].any
        (fun b => b.garage == "G1" &&
          (b.status == .pending || b.status == .confirmed ||
            b.status == .in_progress) && !b.isDeleted)) = true ∧
    (softDeleteGaragePlain [{ id := "G1" }] "G1" 0).2.httpStatus = 200 ∧
    (softDeleteGaragePlain [{ id := "G1" }] "G1" 0).1 =
      [{ id := "G1", isDeleted := true, deletedAt := some 0 }] := by
  decide

/-- C7 amended: the guarded softDeleteGarage variant behaves as claimed —
refusing with 400 and leaving both collections unchanged when a
non-deleted pending/confirmed/in_progress booking exists, and otherwise
soft-deleting the garage and cascading soft-delete plus status cancelled
onto every remaining booking of the garage; but the plain variant wired at
DELETE /garages/:id soft-deletes unconditionally with no booking check and
no cascade. -/
theorem C7_guarded_soft_delete (garages : List GarageDoc)
    (bookings : List BookingDoc) (gid : String) (now : Nat) (g : GarageDoc)
    (hg : garages.find? (fun x => x.id == gid) = some g) :
    ((∃ b ∈ bookings, b.garage = gid ∧ b.isDeleted = false ∧
        (b.status = .pending ∨ b.status = .confirmed ∨
          b.status = .in_progress)) →
      softDeleteGarage garages bookings gid now =
        (garages, bookings,
         ⟨400, "Cannot delete garage with active bookings. Please cancel or complete all bookings first."⟩)) ∧
    ((∀ b ∈ bookings, b.garage = gid → b.isDeleted = false →
        (b.status = .completed ∨ b.status = .cancelled)) →
      (softDeleteGarage garages bookings gid now).2.2 =
        ⟨200, "Garage and associated bookings soft deleted"⟩ ∧
      (softDeleteGarage garages bookings gid now).1.find?
          (fun x => x.id == gid) =
        some { g with isDeleted := true, deletedAt := some now } ∧
      (∀ b' ∈ (softDeleteGarage garages bookings gid now).2.1,
        b'.garage = gid → b'.isDeleted = true ∧ b'.status = .cancelled)) := by
  constructor
  · rintro ⟨b, hb, hbg, hbd, hbs⟩
    have hany : bookings.any (fun b => b.garage == gid &&
        (b.status == .pending || b.status == .confirmed ||
          b.status == .in_progress) && !b.isDeleted) = true := by
      rw [List.any_eq_true]
      refine ⟨b, hb, ?_⟩
      rcases hbs with h | h | h <;> simp [hbg, hbd, h]
    simp [softDeleteGarage, hg, hany]
  · intro hall
    have hany : bookings.any (fun b => b.garage == gid &&
        (b.status == .pending || b.status == .confirmed ||
          b.status == .in_progress) && !b.isDeleted) = false := by
      rw [Bool.eq_false_iff, Ne, List.any_eq_true]
      rintro ⟨b, hb, hbp⟩
      simp only [Bool.and_eq_true, beq_iff_eq, Bool.or_eq_true,
        Bool.not_eq_true'] at hbp
      rcases hbp with ⟨⟨hbg, hbs⟩, hbd⟩
      rcases hall b hb hbg hbd with h | h <;> rw [h] at hbs <;> simp at hbs
    refine ⟨?_, ?_, ?_⟩
    · simp [softDeleteGarage, hg, hany]
    · have hupd := find?_updateFirst_of_pos (fun x : GarageDoc => x.id == gid)
        (fun x => { x with isDeleted := true, deletedAt := some now })
        garages g hg (by simpa using (by simpa using List.find?_some hg :
          g.id = gid))
      simpa [softDeleteGarage, hg, hany] using hupd
    · intro b' hmem hbg'
      simp only [softDeleteGarage, hg, hany] at hmem
      simp only [Bool.false_eq_true, if_neg, not_false_iff] at hmem
      rcases List.mem_map.mp hmem with ⟨b, hb, hbeq⟩
      by_cases hbg : b.garage = gid
      · rw [← hbeq]
        simp [hbg]
      · rw [← hbeq] at hbg'
        simp [hbg] at hbg'

/-- C7 witness: the amended theorem at a garage with one active booking
(refusal branch) and the success branch exercised through a completed
booking. -/
theorem C7_guarded_soft_delete_witness :
    softDeleteGarage [{ id := "G1" }] [⟨"b1", "G1", .pending, false, none⟩]
        "G1" 4 =
      ([{ id := "G1" }], [⟨"b1", "G1", .pending, false, none⟩],
       ⟨400, "Cannot delete garage with active bookings. Please cancel or complete all bookings first."⟩) ∧
    (softDeleteGarage [{ id := "G1" }] [⟨"b2", "G1", .completed, false, none⟩]
        "G1" 4).2.2 = ⟨200, "Garage and associated bookings soft deleted"⟩ := by
  constructor
  · exact (C7_guarded_soft_delete [{ id := "G1" }]
      [⟨"b1", "G1", .pending, false, none⟩] "G1" 4 { id := "G1" }
      (by decide)).1
      ⟨⟨"b1", "G1", .pending, false, none⟩, by decide, rfl, rfl, Or.inl rfl⟩
  · exact ((C7_guarded_soft_delete [{ id := "G1" }]
      [⟨"b2", "G1", .completed, false, none⟩] "G1" 4 { id := "G1" }
      (by decide)).2 (by decide)).1

/-! Helper lemmas for the rating rollup claims -/

/-- The review document created for one garage from a (user, rating) pair,
with the user string doubling as the stored id. -/
def mkReview (gid : String) (p : String × Nat) : ReviewDoc :=
  { id := p.1, user := p.1, garage := gid, rating := p.2 }

/-- Sum of the ratings of a (user, rating) list, as a rational. -/
def pairsSumQ (pairs : List (String × Nat)) : ℚ :=
  (pairs.map (fun p => (p.2 : ℚ))).sum

theorem updateGarageRating_id (l : List ReviewDoc) (g : GarageDoc) :
    (updateGarageRating l g).id = g.id := by
  by_cases h : 0 < (nonDeletedFor l g.id).length <;>
    simp [updateGarageRating, h]

theorem updateGarageRating_comp (l l' : List ReviewDoc) (g : GarageDoc) :
    updateGarageRating l (updateGarageRating l' g) = updateGarageRating l g := by
  unfold updateGarageRating
  by_cases h' : 0 < (nonDeletedFor l' g.id).length <;>
    simp only [h', if_pos, if_neg, not_lt, Nat.le_zero] <;>
    by_cases h : 0 < (nonDeletedFor l g.id).length <;>
      simp [h]

theorem updateFirst_append_of_none (p : α → Bool) (f : α → α)
    (l₁ l₂ : List α) (h : ∀ a ∈ l₁, p a = false) :
    updateFirst p f (l₁ ++ l₂) = l₁ ++ updateFirst p f l₂ := by
  induction l₁ with
  | nil => rfl
  | cons a as ih =>
    have ha : p a = false := h a (List.mem_cons_self a as)
    simp only [List.cons_append, updateFirst, ha, Bool.false_eq_true,
      not_false_iff, ite_false, List.cons.injEq, true_and]
    exact ih fun x hx => h x (List.mem_cons_of_mem a hx)

theorem find?_append_of_none (p : α → Bool) (l₁ l₂ : List α)
    (h : l₁.find? p = none) :
    (l₁ ++ l₂).find? p = l₂.find? p := by
  induction l₁ with
  | nil => rfl
  | cons a as ih =>
    rw [List.find?_eq_none] at h
    have ha := h a (List.mem_cons_self a as)
    rw [List.cons_append, List.find?_cons_of_neg _ (by simp [ha])]
    exact ih (List.find?_eq_none.mpr fun x hx => h x (List.mem_cons_of_mem a hx))

theorem updateFirst_mem_of_find? (p : α → Bool) (f : α → α) (l : List α)
    (a : α) (h : l.find? p = some a) : f a ∈ updateFirst p f l := by
  induction l with
  | nil => simp [List.find?] at h
  | cons b bs ih =>
    by_cases hp : p b
    · rw [List.find?_cons_of_pos _ hp] at h
      cases h
      simp [updateFirst, hp]
    · rw [List.find?_cons_of_neg _ hp] at h
      simp only [updateFirst, hp, Bool.false_eq_true, if_neg, not_false_iff,
        ite_false]
      exact List.mem_cons_of_mem b (ih h)

theorem nonDeletedFor_append (l₁ l₂ : List ReviewDoc) (gid : String) :
    nonDeletedFor (l₁ ++ l₂) gid =
      nonDeletedFor l₁ gid ++ nonDeletedFor l₂ gid := by
  simp [nonDeletedFor, List.filter_append]

theorem nonDeletedFor_eq_nil (l : List ReviewDoc) (gid : String)
    (h : ∀ r ∈ l, r.garage ≠ gid) : nonDeletedFor l gid = [] := by
  rw [nonDeletedFor, List.filter_eq_nil_iff]
  intro r hr
  simp [h r hr]

theorem nonDeletedFor_map_mk (pairs : List (String × Nat)) (gid : String) :
    nonDeletedFor (pairs.map (mkReview gid)) gid =
      pairs.map (mkReview gid) := by
  rw [nonDeletedFor, List.filter_eq_self]
  intro r hr
  rcases List.mem_map.mp hr with ⟨q, _, rfl⟩
  simp [mkReview]

theorem ratingSum_map_mk (pairs : List (String × Nat)) (gid : String) :
    ratingSum (pairs.map (mkReview gid)) = pairsSumQ pairs := by
  simp [ratingSum, pairsSumQ, List.map_map]
  rfl

theorem foldCreate_ok (pairs : List (String × Nat)) (rs : List ReviewDoc)
    (g : GarageDoc) (hnd : (pairs.map Prod.fst).Nodup)
    (hfresh : ∀ p ∈ pairs, ∀ r ∈ rs, r.garage = g.id → r.user ≠ p.1) :
    foldCreate pairs rs g = .ok (rs ++ pairs.map (mkReview g.id),
      if pairs.isEmpty then g
      else updateGarageRating (rs ++ pairs.map (mkReview g.id)) g) := by
  induction pairs generalizing rs g with
  | nil => simp [foldCreate]
  | cons p rest ih =>
    obtain ⟨u, k⟩ := p
    have hfreshu : ∀ r ∈ rs, r.garage = g.id → r.user ≠ u :=
      fun r hr hg => hfresh (u, k) (List.mem_cons_self _ _) r hr hg
    have hch2 : rs.any (fun r => r.user == u && r.garage == g.id) = false := by
      rw [Bool.eq_false_iff, Ne, List.any_eq_true]
      rintro ⟨r, hr, hpr⟩
      simp only [Bool.and_eq_true, beq_iff_eq] at hpr
      exact hfreshu r hr hpr.2 hpr.1
    have hch1 : rs.any
        (fun r => r.user == u && r.garage == g.id && !r.isDeleted) = false := by
      rw [Bool.eq_false_iff, Ne, List.any_eq_true]
      rintro ⟨r, hr, hpr⟩
      simp only [Bool.and_eq_true, beq_iff_eq] at hpr
      exact hfreshu r hr hpr.1.2 hpr.1.1
    have hndr : (rest.map Prod.fst).Nodup := (List.nodup_cons.mp hnd).2
    have hur : u ∉ rest.map Prod.fst := by
      simpa using (List.nodup_cons.mp hnd).1
    simp only [foldCreate, createReview, hch1, hch2, Bool.false_eq_true,
      ite_false, if_neg, not_false_iff]
    set rs' := rs ++ [{ id := u, user := u, garage := g.id, rating := k }]
      with hrs'
    set g1 := updateGarageRating rs' g with hg1
    have hid1 : g1.id = g.id := updateGarageRating_id rs' g
    have hfresh' : ∀ q ∈ rest, ∀ r ∈ rs', r.garage = g1.id → r.user ≠ q.1 := by
      intro q hq r hr hgar
      rw [hid1] at hgar
      rcases List.mem_append.mp hr with hr | hr
      · exact hfresh q (List.mem_cons_of_mem _ hq) r hr hgar
      · rcases List.mem_singleton.mp hr with rfl
        intro hru
        apply hur
        have huq : u = q.1 := hru
        rw [huq]
        exact List.mem_map_of_mem Prod.fst hq
    rw [ih rs' g1 hndr hfresh']
    have hmk : mkReview g1.id = mkReview g.id := by rw [hid1]
    rw [hmk]
    cases rest with
    | nil =>
      simp only [List.isEmpty_nil, List.isEmpty_cons, ite_true, ite_false,
        Bool.false_eq_true, List.map_nil, List.map_cons, List.append_nil]
      rfl
    | cons q qs =>
      simp only [List.isEmpty_cons, ite_false, Bool.false_eq_true, if_neg,
        not_false_iff, List.map_cons]
      have hlist2 : rs' ++ mkReview g.id q :: List.map (mkReview g.id) qs =
          rs ++ mkReview g.id (u, k) :: mkReview g.id q ::
            List.map (mkReview g.id) qs := by
        simp [hrs', mkReview]
      rw [hlist2, hg1, updateGarageRating_comp]

theorem nonDeletedFor_mark_mk (gid u : String) (now : Nat)
    (pairs : List (String × Nat)) (hnd : (pairs.map Prod.fst).Nodup) :
    nonDeletedFor (updateFirst (fun x => x.id == u)
        (fun x => { x with isDeleted := true, deletedAt := some now })
        (pairs.map (mkReview gid))) gid =
      (pairs.filter (fun p => !(p.1 == u))).map (mkReview gid) := by
  induction pairs with
  | nil => rfl
  | cons q rest ih =>
    have hndr : (rest.map Prod.fst).Nodup := (List.nodup_cons.mp hnd).2
    have hqr : q.1 ∉ rest.map Prod.fst := by
      simpa using (List.nodup_cons.mp hnd).1
    have hih := ih hndr
    by_cases hq : q.1 = u
    · have hrest : rest.filter (fun p => !(p.1 == u)) = rest := by
        rw [List.filter_eq_self]
        intro x hx
        have hxu : x.1 ≠ u := by
          intro hxu
          apply hqr
          rw [hq, ← hxu]
          exact List.mem_map_of_mem Prod.fst hx
        simp [hxu]
      have hcond : ((mkReview gid q).id == u) = true := by simp [mkReview, hq]
      simp only [List.map_cons, updateFirst, hcond, if_pos]
      rw [List.filter_cons_of_neg (by simp [hq]), hrest]
      have hdrop : nonDeletedFor
          ({ mkReview gid q with isDeleted := true, deletedAt := some now } ::
              rest.map (mkReview gid)) gid =
          nonDeletedFor (rest.map (mkReview gid)) gid := by
        unfold nonDeletedFor
        rw [List.filter_cons_of_neg (by simp)]
      rw [hdrop, nonDeletedFor_map_mk]
    · have hcond : ((mkReview gid q).id == u) = false := by simp [mkReview, hq]
      simp only [List.map_cons, updateFirst, hcond, Bool.false_eq_true,
        if_neg, not_false_iff, ite_false]
      rw [List.filter_cons_of_pos (by simp [hq]), List.map_cons]
      have hkeep : nonDeletedFor (mkReview gid q ::
          updateFirst (fun x => x.id == u)
            (fun x => { x with isDeleted := true, deletedAt := some now })
            (rest.map (mkReview gid))) gid =
          mkReview gid q :: nonDeletedFor (updateFirst (fun x => x.id == u)
            (fun x => { x with isDeleted := true, deletedAt := some now })
            (rest.map (mkReview gid))) gid := by
        unfold nonDeletedFor
        rw [List.filter_cons_of_pos (by simp [mkReview])]
      rw [hkeep, hih]

/-- C8: after N reviews with given ratings are created for a garage (each
create running the full controller path and the post-save rollup hook),
averageRating equals the mean of the ratings rounded to one decimal and
totalReviews equals the count of non-deleted reviews; soft-deleting one
review recomputes both fields from scratch over the remaining non-deleted
reviews, excluding the deleted one (resetting to 0 when none remain). -/
theorem C8_rating_rollup_round_trip
    (pairs : List (String × Nat)) (rs0 : List ReviewDoc) (gar : GarageDoc)
    (u : String) (now : Nat)
    (hnd : (pairs.map Prod.fst).Nodup)
    (hne : pairs ≠ [])
    (hmem : u ∈ pairs.map Prod.fst)
    (hbg : ∀ r ∈ rs0, r.garage ≠ gar.id)
    (hbid : ∀ r ∈ rs0, r.id ≠ u) :
    ∃ rs1 g1 rs2 g2,
      foldCreate pairs rs0 gar = .ok (rs1, g1) ∧
      g1.totalReviews = pairs.length ∧
      g1.averageRating = round1 (pairsSumQ pairs / (pairs.length : ℚ)) ∧
      deleteReview rs1 u u "customer" now g1 = .ok (rs2, g2) ∧
      g2.totalReviews = (pairs.filter (fun p => !(p.1 == u))).length ∧
      g2.averageRating =
        (if (pairs.filter (fun p => !(p.1 == u))).length = 0 then (0 : ℚ)
         else round1 (pairsSumQ (pairs.filter (fun p => !(p.1 == u))) /
           (((pairs.filter (fun p => !(p.1 == u))).length : ℚ)))) := by
  have hfresh : ∀ p ∈ pairs, ∀ r ∈ rs0, r.garage = gar.id → r.user ≠ p.1 := by
    intro p hp r hr hrg
    exact absurd hrg (hbg r hr)
  have hfold := foldCreate_ok pairs rs0 gar hnd hfresh
  rw [if_neg (by simpa [List.isEmpty_iff] using hne)] at hfold
  refine ⟨rs0 ++ pairs.map (mkReview gar.id),
    updateGarageRating (rs0 ++ pairs.map (mkReview gar.id)) gar,
    rs0 ++ updateFirst (fun x => x.id == u)
      (fun x => { x with isDeleted := true, deletedAt := some now })
      (pairs.map (mkReview gar.id)),
    updateGarageRating
      (rs0 ++ updateFirst (fun x => x.id == u)
        (fun x => { x with isDeleted := true, deletedAt := some now })
        (pairs.map (mkReview gar.id))) gar,
    hfold, ?_, ?_, ?_, ?_, ?_⟩
  case _ =>
    have hnd1 : nonDeletedFor (rs0 ++ pairs.map (mkReview gar.id)) gar.id =
        pairs.map (mkReview gar.id) := by
      rw [nonDeletedFor_append, nonDeletedFor_eq_nil rs0 gar.id hbg,
        List.nil_append, nonDeletedFor_map_mk]
    have hpos : 0 < pairs.length := List.length_pos.mpr hne
    simp only [updateGarageRating, hnd1, List.length_map, ratingSum_map_mk]
    rw [if_pos hpos]
  case _ =>
    have hnd1 : nonDeletedFor (rs0 ++ pairs.map (mkReview gar.id)) gar.id =
        pairs.map (mkReview gar.id) := by
      rw [nonDeletedFor_append, nonDeletedFor_eq_nil rs0 gar.id hbg,
        List.nil_append, nonDeletedFor_map_mk]
    have hpos : 0 < pairs.length := List.length_pos.mpr hne
    simp only [updateGarageRating, hnd1, List.length_map, ratingSum_map_mk]
    rw [if_pos hpos]
  case _ =>
    have hfind0 : rs0.find? (fun x => x.id == u) = none :=
      List.find?_eq_none.mpr (fun x hx => by simp [hbid x hx])
    have hfindrs1 : (rs0 ++ pairs.map (mkReview gar.id)).find?
        (fun x => x.id == u) =
        (pairs.map (mkReview gar.id)).find? (fun x => x.id == u) :=
      find?_append_of_none _ _ _ hfind0
    obtain ⟨p0, hp0, hp0u⟩ := List.mem_map.mp hmem
    have hsome : ∃ r, (pairs.map (mkReview gar.id)).find?
        (fun x => x.id == u) = some r := by
      cases hc : (pairs.map (mkReview gar.id)).find? (fun x => x.id == u) with
      | none =>
        exfalso
        have := List.find?_eq_none.mp hc (mkReview gar.id p0)
          (List.mem_map_of_mem _ hp0)
        simp [mkReview, hp0u] at this
      | some r => exact ⟨r, rfl⟩
    obtain ⟨r, hr⟩ := hsome
    have hrmem : r ∈ pairs.map (mkReview gar.id) := List.mem_of_find?_eq_some hr
    obtain ⟨pr, hprmem, hpr⟩ := List.mem_map.mp hrmem
    have hrid : r.id = u := by simpa using List.find?_some hr
    have hruser : r.user = u := by
      rw [← hpr] at hrid ⊢
      exact hrid
    have hrdel : r.isDeleted = false := by rw [← hpr]; rfl
    have hsplit : updateFirst (fun x => x.id == u)
        (fun x => { x with isDeleted := true, deletedAt := some now })
        (rs0 ++ pairs.map (mkReview gar.id)) =
        rs0 ++ updateFirst (fun x => x.id == u)
          (fun x => { x with isDeleted := true, deletedAt := some now })
          (pairs.map (mkReview gar.id)) :=
      updateFirst_append_of_none _ _ _ _ (fun a ha => by simp [hbid a ha])
    unfold deleteReview
    rw [hfindrs1, hr]
    simp only [hrdel, Bool.false_eq_true, if_neg, not_false_iff, ite_false,
      hruser, ne_eq]
    rw [hsplit, updateGarageRating_comp, if_neg (by simp)]
  case _ =>
    have hnd2 : nonDeletedFor
        (rs0 ++ updateFirst (fun x => x.id == u)
          (fun x => { x with isDeleted := true, deletedAt := some now })
          (pairs.map (mkReview gar.id))) gar.id =
        (pairs.filter (fun p => !(p.1 == u))).map (mkReview gar.id) := by
      rw [nonDeletedFor_append, nonDeletedFor_eq_nil rs0 gar.id hbg,
        List.nil_append, nonDeletedFor_mark_mk gar.id u now pairs hnd]
    simp only [updateGarageRating, hnd2, List.length_map, ratingSum_map_mk]
    by_cases hrem : 0 < (pairs.filter (fun p => !(p.1 == u))).length
    · rw [if_pos hrem]
    · rw [if_neg hrem]
      have : (pairs.filter (fun p => !(p.1 == u))).length = 0 := by omega
      rw [this]
  case _ =>
    have hnd2 : nonDeletedFor
        (rs0 ++ updateFirst (fun x => x.id == u)
          (fun x => { x with isDeleted := true, deletedAt := some now })
          (pairs.map (mkReview gar.id))) gar.id =
        (pairs.filter (fun p => !(p.1 == u))).map (mkReview gar.id) := by
      rw [nonDeletedFor_append, nonDeletedFor_eq_nil rs0 gar.id hbg,
        List.nil_append, nonDeletedFor_mark_mk gar.id u now pairs hnd]
    simp only [updateGarageRating, hnd2, List.length_map, ratingSum_map_mk]
    by_cases hrem : (pairs.filter (fun p => !(p.1 == u))).length = 0
    · rw [if_pos hrem, if_neg (by omega)]
    · rw [if_neg hrem, if_pos (Nat.pos_of_ne_zero hrem)]


theorem any_live_eq_false_after_mark (l : List ReviewDoc)
    (rid u gid : String) (now : Nat) (hnd : l.Nodup)
    (huniq : ∀ x ∈ l, x.user = u → x.garage = gid → x.id = rid)
    (hids : ∀ x ∈ l, ∀ y ∈ l, x.id = rid → y.id = rid → x = y) :
    (updateFirst (fun x => x.id == rid)
        (fun x => { x with isDeleted := true, deletedAt := some now }) l).any
      (fun x => x.user == u && x.garage == gid && !x.isDeleted) = false := by
  induction l with
  | nil => rfl
  | cons a as ih =>
    have hnda : a ∉ as := (List.nodup_cons.mp hnd).1
    have hndr : as.Nodup := (List.nodup_cons.mp hnd).2
    by_cases hp : a.id = rid
    · have hcond : (a.id == rid) = true := by simp [hp]
      simp only [updateFirst, hcond, if_pos]
      rw [List.any_cons]
      have h1 : (({ a with isDeleted := true, deletedAt := some now } :
            ReviewDoc).user == u &&
          ({ a with isDeleted := true, deletedAt := some now } :
            ReviewDoc).garage == gid &&
          !({ a with isDeleted := true, deletedAt := some now } :
            ReviewDoc).isDeleted) = false := by
        simp
      rw [h1, Bool.false_or]
      rw [Bool.eq_false_iff, Ne, List.any_eq_true]
      rintro ⟨x, hx, hq⟩
      simp only [Bool.and_eq_true, beq_iff_eq, Bool.not_eq_true'] at hq
      have hxid : x.id = rid :=
        huniq x (List.mem_cons_of_mem a hx) hq.1.1 hq.1.2
      have hxa : x = a := hids x (List.mem_cons_of_mem a hx) a
        (List.mem_cons_self a as) hxid hp
      exact hnda (hxa ▸ hx)
    · have hcond : (a.id == rid) = false := by simp [hp]
      simp only [updateFirst, hcond, Bool.false_eq_true, if_neg,
        not_false_iff, ite_false]
      rw [List.any_cons]
      have h1 : (a.user == u && a.garage == gid && !a.isDeleted) = false := by
        apply Bool.eq_false_iff.mpr
        intro htrue
        simp only [Bool.and_eq_true, beq_iff_eq, Bool.not_eq_true'] at htrue
        exact hp (huniq a (List.mem_cons_self a as) htrue.1.1 htrue.1.2)
      rw [h1, Bool.false_or]
      exact ih hndr (fun x hx => huniq x (List.mem_cons_of_mem a hx))
        (fun x hx y hy => hids x (List.mem_cons_of_mem a hx) y
          (List.mem_cons_of_mem a hy))

/-- C9: after a customer soft-deletes their review of a garage, creating a
new review for the same (customer, garage) pair passes the application
level duplicate check (no non-deleted review exists) but fails at the data
store with a duplicate-key error, because the unique index on
(user, garage) still contains the soft-deleted row. -/
theorem C9_soft_deleted_review_blocks_recreate
    (reviews : List ReviewDoc) (g : GarageDoc) (rid u newId : String)
    (k : Nat) (now : Nat) (r : ReviewDoc)
    (hfind : reviews.find? (fun x => x.id == rid) = some r)
    (hu : r.user = u) (hg : r.garage = g.id) (hd : r.isDeleted = false)
    (hnd : reviews.Nodup)
    (huniq : ∀ x ∈ reviews, x.user = u → x.garage = g.id → x.id = rid)
    (hids : ∀ x ∈ reviews, ∀ y ∈ reviews, x.id = rid → y.id = rid → x = y) :
    deleteReview reviews rid u "customer" now g =
      .ok (updateFirst (fun x => x.id == rid)
            (fun x => { x with isDeleted := true, deletedAt := some now })
            reviews,
          updateGarageRating (updateFirst (fun x => x.id == rid)
            (fun x => { x with isDeleted := true, deletedAt := some now })
            reviews) g) ∧
    (updateFirst (fun x => x.id == rid)
        (fun x => { x with isDeleted := true, deletedAt := some now })
        reviews).any
      (fun x => x.user == u && x.garage == g.id && !x.isDeleted) = false ∧
    createReview (updateFirst (fun x => x.id == rid)
        (fun x => { x with isDeleted := true, deletedAt := some now })
        reviews) newId u k
      (updateGarageRating (updateFirst (fun x => x.id == rid)
        (fun x => { x with isDeleted := true, deletedAt := some now })
        reviews) g) =
      .error ⟨500, "E11000 duplicate key error"⟩ := by
  have h2 := any_live_eq_false_after_mark reviews rid u g.id now hnd huniq hids
  refine ⟨?_, h2, ?_⟩
  · unfold deleteReview
    rw [hfind]
    simp [hd, hu]
  · have hid2 := updateGarageRating_id (updateFirst (fun x => x.id == rid)
      (fun x => { x with isDeleted := true, deletedAt := some now })
      reviews) g
    have hmem2 : ({ r with isDeleted := true, deletedAt := some now } :
        ReviewDoc) ∈ updateFirst (fun x => x.id == rid)
          (fun x => { x with isDeleted := true, deletedAt := some now })
          reviews :=
      updateFirst_mem_of_find? _ _ _ _ hfind
    have hany2 : (updateFirst (fun x => x.id == rid)
        (fun x => { x with isDeleted := true, deletedAt := some now })
        reviews).any (fun x => x.user == u && x.garage == g.id) = true :=
      List.any_eq_true.mpr ⟨_, hmem2, by simp [hu, hg]⟩
    simp [createReview, hid2, h2, hany2]


/-- C8 witness: the round-trip theorem at three concrete reviews with
ratings 5, 4, 4 followed by soft-deleting the second. -/
theorem C8_rating_rollup_round_trip_witness :
    ∃ rs1 g1 rs2 g2,
      foldCreate [("alice", 5), ("bob", 4), ("carol", 4)] []
          { id := "G1" } = .ok (rs1, g1) ∧
      g1.totalReviews = [("alice", 5), ("bob", 4), ("carol", 4)].length ∧
      g1.averageRating = round1
        (pairsSumQ [("alice", 5), ("bob", 4), ("carol", 4)] /
          (([("alice", 5), ("bob", 4), ("carol", 4)].length : Nat) : ℚ)) ∧
      deleteReview rs1 "bob" "bob" "customer" 9 g1 = .ok (rs2, g2) ∧
      g2.totalReviews = ([("alice", 5), ("bob", 4), ("carol", 4)].filter
        (fun p => !(p.1 == "bob"))).length ∧
      g2.averageRating =
        (if ([("alice", 5), ("bob", 4), ("carol", 4)].filter
            (fun p => !(p.1 == "bob"))).length = 0 then (0 : ℚ)
         else round1 (pairsSumQ ([("alice", 5), ("bob", 4), ("carol", 4)].filter
             (fun p => !(p.1 == "bob"))) /
           ((([("alice", 5), ("bob", 4), ("carol", 4)].filter
             (fun p => !(p.1 == "bob"))).length : Nat) : ℚ))) :=
  C8_rating_rollup_round_trip [("alice", 5), ("bob", 4), ("carol", 4)] []
    { id := "G1" } "bob" 9 (by decide) (by decide) (by decide) (by decide)
    (by decide)

/-- C9 witness: the theorem at a one-review store — delete the review,
then a re-create attempt hits the duplicate-key error. -/
theorem C9_soft_deleted_review_blocks_recreate_witness :
    deleteReview [⟨"r1", "alice", "G1", 5, false, none⟩] "r1" "alice"
        "customer" 2 { id := "G1" } =
      .ok (updateFirst (fun x : ReviewDoc => x.id == "r1")
            (fun x => { x with isDeleted := true, deletedAt := some 2 })
            [⟨"r1", "alice", "G1", 5, false, none⟩],
          updateGarageRating (updateFirst (fun x : ReviewDoc => x.id == "r1")
            (fun x => { x with isDeleted := true, deletedAt := some 2 })
            [⟨"r1", "alice", "G1", 5, false, none⟩]) { id := "G1" }) ∧
    (updateFirst (fun x : ReviewDoc => x.id == "r1")
        (fun x => { x with isDeleted := true, deletedAt := some 2 })
        [⟨"r1", "alice", "G1", 5, false, none⟩]).any
      (fun x : ReviewDoc => x.user == "alice" && x.garage == "G1" && !x.isDeleted) =
      false ∧
    createReview (updateFirst (fun x : ReviewDoc => x.id == "r1")
        (fun x => { x with isDeleted := true, deletedAt := some 2 })
        [⟨"r1", "alice", "G1", 5, false, none⟩]) "r2" "alice" 3
      (updateGarageRating (updateFirst (fun x : ReviewDoc => x.id == "r1")
        (fun x => { x with isDeleted := true, deletedAt := some 2 })
        [⟨"r1", "alice", "G1", 5, false, none⟩]) { id := "G1" }) =
      .error ⟨500, "E11000 duplicate key error"⟩ :=
  C9_soft_deleted_review_blocks_recreate
    [⟨"r1", "alice", "G1", 5, false, none⟩] { id := "G1" } "r1" "alice" "r2"
    3 2 ⟨"r1", "alice", "G1", 5, false, none⟩ (by decide) rfl rfl rfl
    (by decide) (by decide) (by decide)

end CarGarage
